import Mathlib

/-!
Verification development for the RealSense ROS node
(`realsense2_camera/src/base_realsense_node.cpp`).

The definitions below are a shallow embedding of the functions of
`BaseRealSenseNode` that the verified properties concern:

* `publishPointCloud`   — point-cloud validity filtering, sizing, texturing;
* the `frame_callback`  — time-base initialisation, timestamp derivation,
  per-StreamKey deduplication, error containment;
* the IMU callback      — early return before time-base initialisation;
* `setupFilters`        — filter-list construction and the colorizer's
  in-place mutation of the DEPTH stream descriptor;
* `enable_devices`      — first-match profile negotiation;
* `getParameters`       — the derived `_pointcloud` / `_sync_frames` flags.

Machine floating-point values (timestamps, vertices, UV coordinates) are
modelled with `ℚ`; the program only compares, adds, subtracts and divides
them, which the rationals model exactly.  Byte buffers are `List Nat`.
-/

set_option autoImplicit false

namespace RealSense

/-- `rs2_stream` stream (signal) types used by the node. -/
inductive RsStream where
  | depth
  | infrared
  | color
  | fisheye
  | gyro
  | accel
  | any
  deriving DecidableEq, Repr

/-- `rs2_format` pixel formats used by the node. -/
inductive RsFormat where
  | z16
  | y8
  | rgb8
  | raw8
  | motionXyz32f
  | xyz32f
  deriving DecidableEq, Repr

/-- OpenCV decoded pixel layouts (`CV_16UC1` etc.) used by the node. -/
inductive CvFormat where
  | cv16UC1
  | cv8UC1
  | cv8UC3
  deriving DecidableEq, Repr

/-- `stream_index_pair`: (signal type, stream index) — the StreamKey. -/
abbrev StreamIndexPair := RsStream × Nat

/-! ## Point cloud (`BaseRealSenseNode::publishPointCloud`) -/

/-- One texture frame: `get_width()`, `get_height()`, and the byte buffer
returned by `get_data()` (row-major, 3 bytes per pixel). -/
structure TextureFrame where
  width : Nat
  height : Nat
  data : List Nat
  deriving Repr

/-- One input point of `rs2::points`: a vertex `(x,y,z)` with its paired
texture coordinate `(u,v)`. -/
structure PcPoint where
  x : ℚ
  y : ℚ
  z : ℚ
  u : ℚ
  v : ℚ
  deriving Repr, DecidableEq

/-- One output record written through the PointCloud2 iterators:
`(x,y,z)` floats and `(r,g,b)` bytes. -/
structure PcRecord where
  x : ℚ
  y : ℚ
  z : ℚ
  r : Nat
  g : Nat
  b : Nat
  deriving Repr, DecidableEq

/-- The published `sensor_msgs::PointCloud2` fields the claims concern. -/
structure PointCloud2Msg where
  width : Nat
  height : Nat
  points : List PcRecord
  deriving Repr, DecidableEq

/-- The validity test used by both passes of `publishPointCloud`:
`i >= 0.f && i <= 1.f && j >= 0.f && j <= 1.f`. -/
def uvValid (i j : ℚ) : Bool :=
  decide (0 ≤ i) && decide (i ≤ 1) && decide (0 ≤ j) && decide (j ≤ 1)

/-- The `no_color` fallback pixel `{255, 255, 255}`. -/
def no_color : List Nat := [255, 255, 255]

/-- Second pass of `publishPointCloud`, one point: when `use_texture` the
tested coordinates are the point's UV, otherwise `i` and `j` keep their
initialisation `0`; a point passing the `[0,1]²` test is written with the
colour read at byte offset `(pixy * texture_width + pixx) * 3` of
`color_data` (the texture bytes, or `no_color` when no texture is used). -/
def fillPoint (use_texture : Bool) (texture_width texture_height : Nat)
    (color_data : List Nat) (p : PcPoint) : Option PcRecord :=
  let i : ℚ := if use_texture then p.u else 0
  let j : ℚ := if use_texture then p.v else 0
  if uvValid i j then
    let pixx : Nat := (Int.floor (i * texture_width)).toNat
    let pixy : Nat := (Int.floor (j * texture_height)).toNat
    let offset : Nat := (pixy * texture_width + pixx) * 3
    some ⟨p.x, p.y, p.z, color_data.getD offset 0,
          color_data.getD (offset + 1) 0, color_data.getD (offset + 2) 0⟩
  else
    none

/-- `BaseRealSenseNode::publishPointCloud`.  `use_texture` is
`_pointcloud_texture.first != RS2_STREAM_ANY`; when it holds but the texture
frame is not found in the frameset the function returns without publishing.
The first pass counts the points whose UV lies in `[0,1]²` and declares that
count as the message `width`; the second pass writes the records. -/
def publishPointCloud (use_texture : Bool) (texture : Option TextureFrame)
    (pc : List PcPoint) : Option PointCloud2Msg :=
  match use_texture, texture with
  | true, none => none
  | true, some tex =>
      let num_valid_points := (pc.filter (fun p => uvValid p.u p.v)).length
      some { width := num_valid_points, height := 1,
             points := pc.filterMap (fillPoint true tex.width tex.height tex.data) }
  | false, _ =>
      let num_valid_points := (pc.filter (fun p => uvValid p.u p.v)).length
      some { width := num_valid_points, height := 1,
             points := pc.filterMap (fillPoint false 0 0 no_color) }

/-! ## Time base (`frame_callback` and the IMU callback) -/

/-- The node's time-base fields: `_intialize_time_base` (sic),
`_ros_time_base` (seconds) and `_camera_time_base` (milliseconds). -/
structure TimeBase where
  intialize_time_base : Bool
  ros_time_base : ℚ
  camera_time_base : ℚ
  deriving Repr, DecidableEq

/-- The initialisation branch of `frame_callback`: on the first frame
(`false == _intialize_time_base`) record wall-clock now and the frame's
hardware timestamp as origins; otherwise leave the record untouched. -/
def updateTimeBase (tb : TimeBase) (now frame_ts : ℚ) : TimeBase :=
  if tb.intialize_time_base = false then
    { intialize_time_base := true, ros_time_base := now,
      camera_time_base := frame_ts }
  else
    tb

/-- Timestamp derivation of `frame_callback`: in sync mode
`ros::Time::now() + ros::Duration(_ros_time_offset)`, otherwise
`_ros_time_base.toSec() + (frame_ts - _camera_time_base) / 1000`. -/
def frameTimestamp (sync_frames : Bool) (ros_time_offset now : ℚ)
    (tb : TimeBase) (frame_ts : ℚ) : ℚ :=
  if sync_frames then now + ros_time_offset
  else tb.ros_time_base + (frame_ts - tb.camera_time_base) / 1000

/-- The body of `frame_callback` restricted to the time-base state and the
derived timestamp; the `Except` value stands for the publish work that may
throw (`publish_fault = true` injects an exception at the publish point,
after the time base has been updated). -/
def frame_callback_body (publish_fault sync_frames : Bool)
    (ros_time_offset : ℚ) (st : TimeBase) (now frame_ts : ℚ) :
    TimeBase × Except String ℚ :=
  let st' := updateTimeBase st now frame_ts
  let t := frameTimestamp sync_frames ros_time_offset now st' frame_ts
  (st', if publish_fault then
          Except.error "An error has occurred during frame callback"
        else Except.ok t)

/-- `frame_callback` with its enclosing `try`/`catch`: an exception is
caught and logged, the frameset's publication is dropped (`none`), and the
callback returns normally with the state reached so far. -/
def frame_callback_guarded (publish_fault sync_frames : Bool)
    (ros_time_offset : ℚ) (st : TimeBase) (now frame_ts : ℚ) :
    TimeBase × Option ℚ :=
  match frame_callback_body publish_fault sync_frames ros_time_offset st now frame_ts with
  | (st', Except.ok t) => (st', some t)
  | (st', Except.error _) => (st', none)

/-- The IMU callback (`sens.start([this](rs2::frame frame){ ... })`):
before the time base is initialised it returns immediately; afterwards,
when a subscriber is present, it increments the sequence counter and
publishes a message stamped
`_ros_time_base.toSec() + (frame_ts - _camera_time_base) / 1000`. -/
def imu_callback (st : TimeBase) (seq : Nat) (has_subscribers : Bool)
    (frame_ts : ℚ) : TimeBase × Nat × Option ℚ :=
  if st.intialize_time_base = false then
    (st, seq, none)
  else if has_subscribers then
    (st, seq + 1, some (st.ros_time_base + (frame_ts - st.camera_time_base) / 1000))
  else
    (st, seq, none)

/-- One callback delivery in a streaming session: either an image-stream
`frame_callback` invocation or an IMU callback invocation, each carrying
the wall clock at the invocation and the frame's hardware timestamp. -/
inductive CbEvent where
  | image (now frame_ts : ℚ)
  | imu (now frame_ts : ℚ)
  deriving Repr

/-- Effect of one callback delivery on the time-base record: the image
callback runs its initialisation branch; the IMU callback never writes the
time base (it returns early before initialisation and only reads it
afterwards). -/
def sessionStep (st : TimeBase) (e : CbEvent) : TimeBase :=
  match e with
  | CbEvent.image now frame_ts => updateTimeBase st now frame_ts
  | CbEvent.imu _ _ => st

/-! ## Frame-set deduplication (`frame_callback`, "Remove streams with same
type and index") -/

/-- The fields of a processed frame that the deduplication loop inspects:
its profile's stream type, index and format, whether it `is<rs2::points>()`,
and a unique id distinguishing frame objects. -/
structure DFrame where
  streamType : RsStream
  streamIndex : Nat
  format : RsFormat
  isPoints : Bool
  uid : Nat
  deriving DecidableEq, Repr

/-- StreamKey of a frame. -/
def DFrame.sip (f : DFrame) : StreamIndexPair := (f.streamType, f.streamIndex)

/-- The loop of `frame_callback` that builds `frames_to_publish`:
`points_in_set` keeps at most one `rs2::points` frame; every other frame is
kept exactly when its `stream_index_pair` is not yet in `is_in_set`, which
then records it. -/
def selectFramesAux (points_in_set : Bool) (is_in_set : List StreamIndexPair) :
    List DFrame → List DFrame
  | [] => []
  | f :: rest =>
    if f.isPoints then
      if points_in_set then selectFramesAux points_in_set is_in_set rest
      else f :: selectFramesAux true is_in_set rest
    else
      if f.sip ∈ is_in_set then selectFramesAux points_in_set is_in_set rest
      else f :: selectFramesAux points_in_set (f.sip :: is_in_set) rest

/-- `frames_to_publish` computed from the post-filter frameset. -/
def framesToPublish (frameset : List DFrame) : List DFrame :=
  selectFramesAux false [] frameset

/-! ## Filter construction (`BaseRealSenseNode::setupFilters`) -/

/-- `boost::split(filters_str, ... c == ',')`: split a character list on
commas, keeping empty tokens (the empty string yields one empty token). -/
def splitComma : List Char → List (List Char)
  | [] => [[]]
  | c :: rest =>
    match splitComma rest with
    | [] => [[]]
    | t :: ts => if c = ',' then [] :: t :: ts else (c :: t) :: ts

/-- The per-StreamKey descriptor fields touched by `setupFilters`:
`_format`, `_image_format`, `_encoding`, `_unit_step_size`, `_width`,
`_height`. -/
structure StreamDesc where
  format : RsFormat
  image_format : CvFormat
  encoding : String
  unit_step_size : Nat
  width : Nat
  height : Nat
  deriving DecidableEq, Repr

/-- The DEPTH descriptor as set in the constructor: `RS2_FORMAT_Z16`,
`CV_16UC1`, `TYPE_16UC1`, `sizeof(uint16_t)` bytes per unit. -/
def depthDescInit (w h : Nat) : StreamDesc :=
  ⟨RsFormat.z16, CvFormat.cv16UC1, "16UC1", 2, w, h⟩

/-- The COLOR descriptor as set in the constructor: `RS2_FORMAT_RGB8`,
`CV_8UC3`, `RGB8`, 3 bytes per unit. -/
def colorDescInit (w h : Nat) : StreamDesc :=
  ⟨RsFormat.rgb8, CvFormat.cv8UC3, "rgb8", 3, w, h⟩

/-- The token loop of `setupFilters`: "colorizer" and "disparity" set
flags, "spatial"/"temporal"/"decimation" append the named filter,
"pointcloud" asserts `_pointcloud`, any other non-empty token throws. -/
def setupFiltersLoop (pointcloud : Bool) (use_disparity use_colorizer : Bool)
    (acc : List String) : List (List Char) →
    Except String (List String × Bool × Bool)
  | [] => Except.ok (acc, use_disparity, use_colorizer)
  | t :: rest =>
    if t = "colorizer".toList then
      setupFiltersLoop pointcloud use_disparity true acc rest
    else if t = "disparity".toList then
      setupFiltersLoop pointcloud true use_colorizer acc rest
    else if t = "spatial".toList then
      setupFiltersLoop pointcloud use_disparity use_colorizer (acc ++ ["spatial"]) rest
    else if t = "temporal".toList then
      setupFiltersLoop pointcloud use_disparity use_colorizer (acc ++ ["temporal"]) rest
    else if t = "decimation".toList then
      setupFiltersLoop pointcloud use_disparity use_colorizer (acc ++ ["decimation"]) rest
    else if t = "pointcloud".toList then
      if pointcloud then
        setupFiltersLoop pointcloud use_disparity use_colorizer acc rest
      else
        Except.error "assertion failed: _pointcloud"
    else if t.length > 0 then
      Except.error "Unknown Filter"
    else
      setupFiltersLoop pointcloud use_disparity use_colorizer acc rest

/-- `BaseRealSenseNode::setupFilters`: parse the comma-separated request,
bracket with the disparity pair when requested, append "colorizer" (also
overwriting the DEPTH descriptor with the COLOR descriptor's format,
decoded layout, encoding, bytes-per-unit, width and height), and append
"pointcloud" last when `_pointcloud` is set.  Returns the ordered filter
names and the resulting DEPTH descriptor. -/
def setupFilters (pointcloud : Bool) (depthDesc colorDesc : StreamDesc)
    (filters_str : List Char) : Except String (List String × StreamDesc) :=
  match setupFiltersLoop pointcloud false false [] (splitComma filters_str) with
  | Except.error e => Except.error e
  | Except.ok (fs, use_disparity, use_colorizer) =>
    let fs1 := if use_disparity then
                 "disparity_start" :: fs ++ ["disparity_end"]
               else fs
    let fs2 := if use_colorizer then fs1 ++ ["colorizer"] else fs1
    let depthDesc' := if use_colorizer then
                        { format := colorDesc.format,
                          image_format := colorDesc.image_format,
                          encoding := colorDesc.encoding,
                          unit_step_size := colorDesc.unit_step_size,
                          width := colorDesc.width,
                          height := colorDesc.height }
                      else depthDesc
    let fs3 := if pointcloud then fs2 ++ ["pointcloud"] else fs2
    Except.ok (fs3, depthDesc')

/-! ## Profile negotiation (`BaseRealSenseNode::enable_devices`) -/

/-- An `rs2::video_stream_profile` as inspected by `enable_devices`. -/
structure VideoProfile where
  format : RsFormat
  width : Nat
  height : Nat
  fps : Nat
  stream_index : Nat
  deriving DecidableEq, Repr

/-- The request for one enabled StreamKey: `_format[elem]`, `_width[elem]`,
`_height[elem]`, `_fps[elem]` (0 meaning "any") and `elem.second`. -/
structure StreamRequest where
  format : RsFormat
  width : Nat
  height : Nat
  fps : Nat
  index : Nat
  deriving DecidableEq, Repr

/-- The acceptance test of `enable_devices` for one profile. -/
def profileMatches (req : StreamRequest) (p : VideoProfile) : Bool :=
  decide (p.format = req.format) &&
  (decide (req.width = 0) || decide (p.width = req.width)) &&
  (decide (req.height = 0) || decide (p.height = req.height)) &&
  (decide (req.fps = 0) || decide (p.fps = req.fps)) &&
  decide (p.stream_index = req.index)

/-- Outcome of `enable_devices` for one StreamKey: the (possibly
overwritten) `_width`/`_height`/`_fps`, the `_enable` flag, whether the
"not supported" warning was emitted, and the `_enabled_profiles` entry. -/
structure EnableResult where
  width : Nat
  height : Nat
  fps : Nat
  enabled : Bool
  warned : Bool
  profile : Option VideoProfile
  deriving DecidableEq, Repr

/-- `enable_devices` for one enabled StreamKey: scan the sensor's profiles
in the reported order, accept the first match (writing the resolved
width / height / fps back), and on no match clear `_enable` and warn. -/
def enableStream (req : StreamRequest) (profiles : List VideoProfile) :
    EnableResult :=
  match profiles.find? (fun p => profileMatches req p) with
  | some p => ⟨p.width, p.height, p.fps, true, false, some p⟩
  | none => ⟨req.width, req.height, req.fps, false, true, none⟩

/-- `enable_devices` over the whole stream list: each enabled StreamKey is
negotiated independently against its own sensor's profile list. -/
def enable_devices (reqs : List (StreamRequest × List VideoProfile)) :
    List EnableResult :=
  reqs.map (fun rp => enableStream rp.1 rp.2)

/-! ## Derived configuration flags (`BaseRealSenseNode::getParameters`) -/

/-- `std::string::find(pat) != std::string::npos`: does `pat` occur as a
contiguous substring of `l`? -/
def hasSubstring (pat : List Char) : List Char → Bool
  | [] => decide (pat = [])
  | c :: rest => pat.isPrefixOf (c :: rest) || hasSubstring pat rest

/-- The flag derivation in `getParameters`:
`_pointcloud |= (_filters_str.find("pointcloud") != npos)` followed by
`if (_pointcloud || _align_depth || _filters_str.size() > 0)
_sync_frames = true;`.  Returns `(_pointcloud, _sync_frames)`. -/
def getParametersFlags (enable_pointcloud align_depth : Bool)
    (filters_str : List Char) (enable_sync : Bool) : Bool × Bool :=
  let pointcloud := enable_pointcloud || hasSubstring "pointcloud".toList filters_str
  let sync_frames := if pointcloud || align_depth || decide (filters_str.length > 0)
                     then true else enable_sync
  (pointcloud, sync_frames)

/-! ## Helper lemmas -/

theorem sessionStep_of_initialized (st : TimeBase) (e : CbEvent)
    (h : st.intialize_time_base = true) : sessionStep st e = st := by
  cases e with
  | image now ts => simp [sessionStep, updateTimeBase, h]
  | imu now ts => rfl

theorem foldl_sessionStep_of_initialized (st : TimeBase) (evs : List CbEvent)
    (h : st.intialize_time_base = true) : List.foldl sessionStep st evs = st := by
  induction evs generalizing st with
  | nil => rfl
  | cons e rest ih =>
      rw [List.foldl_cons, sessionStep_of_initialized st e h]
      exact ih st h

/-- The non-points frames carrying StreamKey `k`. -/
def nonPointsKey (k : StreamIndexPair) (f : DFrame) : Bool :=
  !f.isPoints && decide (f.sip = k)

theorem selectFramesAux_filter_points_of_true (l : List DFrame)
    (is_in_set : List StreamIndexPair) :
    (selectFramesAux true is_in_set l).filter (fun f => f.isPoints) = [] := by
  induction l generalizing is_in_set with
  | nil => rfl
  | cons f rest ih =>
      by_cases hp : f.isPoints
      · simp [selectFramesAux, hp, ih]
      · by_cases hm : f.sip ∈ is_in_set
        · simp [selectFramesAux, hp, hm, ih]
        · simp [selectFramesAux, hp, hm, List.filter_cons, ih]

theorem selectFramesAux_filter_points (l : List DFrame)
    (is_in_set : List StreamIndexPair) :
    (selectFramesAux false is_in_set l).filter (fun f => f.isPoints) =
      (l.filter (fun f => f.isPoints)).take 1 := by
  induction l generalizing is_in_set with
  | nil => rfl
  | cons f rest ih =>
      by_cases hp : f.isPoints
      · simp [selectFramesAux, hp, List.filter_cons,
              selectFramesAux_filter_points_of_true]
      · by_cases hm : f.sip ∈ is_in_set
        · simp [selectFramesAux, hp, hm, List.filter_cons, ih]
        · simp [selectFramesAux, hp, hm, List.filter_cons, ih]

theorem selectFramesAux_filter_key_of_mem (l : List DFrame)
    (points_in_set : Bool) (is_in_set : List StreamIndexPair)
    (k : StreamIndexPair) (hk : k ∈ is_in_set) :
    (selectFramesAux points_in_set is_in_set l).filter (nonPointsKey k) = [] := by
  induction l generalizing points_in_set is_in_set with
  | nil => rfl
  | cons f rest ih =>
      by_cases hp : f.isPoints
      · cases points_in_set <;>
          simp [selectFramesAux, hp, List.filter_cons, nonPointsKey, ih _ _ hk]
      · by_cases hm : f.sip ∈ is_in_set
        · simp [selectFramesAux, hp, hm, ih _ _ hk]
        · have hne : ¬(f.sip = k) := fun h => hm (h ▸ hk)
          simp [selectFramesAux, hp, hm, List.filter_cons, nonPointsKey, hne,
                ih points_in_set (f.sip :: is_in_set) (List.mem_cons_of_mem _ hk)]

theorem selectFramesAux_filter_key_of_not_mem (l : List DFrame)
    (points_in_set : Bool) (is_in_set : List StreamIndexPair)
    (k : StreamIndexPair) (hk : k ∉ is_in_set) :
    (selectFramesAux points_in_set is_in_set l).filter (nonPointsKey k) =
      (l.filter (nonPointsKey k)).take 1 := by
  induction l generalizing points_in_set is_in_set with
  | nil => rfl
  | cons f rest ih =>
      by_cases hp : f.isPoints
      · cases points_in_set <;>
          simp [selectFramesAux, hp, List.filter_cons, nonPointsKey, ih _ _ hk]
      · by_cases hm : f.sip ∈ is_in_set
        · have hne : ¬(f.sip = k) := fun h => hk (h ▸ hm)
          simp [selectFramesAux, hp, hm, List.filter_cons, nonPointsKey, hne, ih _ _ hk]
        · by_cases hfk : f.sip = k
          · subst hfk
            simp [selectFramesAux, hp, hm, List.filter_cons, nonPointsKey,
                  selectFramesAux_filter_key_of_mem rest points_in_set
                    (f.sip :: is_in_set) f.sip (List.mem_cons_self _ _)]
          · have hk' : k ∉ f.sip :: is_in_set := by
              intro h
              rcases List.mem_cons.mp h with h | h
              · exact hfk h.symm
              · exact hk h
            simp [selectFramesAux, hp, hm, List.filter_cons, nonPointsKey, hfk,
                  ih points_in_set (f.sip :: is_in_set) hk']

/-- The filter name appended by the token loop for the three middle
filters, `none` for every other token. -/
def middleName (t : List Char) : Option String :=
  if t = "spatial".toList then some "spatial"
  else if t = "temporal".toList then some "temporal"
  else if t = "decimation".toList then some "decimation"
  else none

/-- Tokens the `setupFilters` loop accepts without throwing. -/
def goodToken (pointcloud : Bool) (t : List Char) : Bool :=
  decide (t = "colorizer".toList) || decide (t = "disparity".toList) ||
  decide (t = "spatial".toList) || decide (t = "temporal".toList) ||
  decide (t = "decimation".toList) ||
  (decide (t = "pointcloud".toList) && pointcloud) || decide (t = [])

theorem setupFiltersLoop_ok (tokens : List (List Char)) (pointcloud : Bool) :
    ∀ (ud uc : Bool) (acc : List String),
    (∀ t ∈ tokens, goodToken pointcloud t = true) →
    setupFiltersLoop pointcloud ud uc acc tokens =
      Except.ok (acc ++ tokens.filterMap middleName,
                 ud || tokens.any (fun t => decide (t = "disparity".toList)),
                 uc || tokens.any (fun t => decide (t = "colorizer".toList))) := by
  induction tokens with
  | nil => intro ud uc acc _; simp [setupFiltersLoop]
  | cons t rest ih =>
      intro ud uc acc hgood
      have hrest : ∀ x ∈ rest, goodToken pointcloud x = true :=
        fun x hx => hgood x (List.mem_cons_of_mem _ hx)
      have ht := hgood t (List.mem_cons_self _ _)
      by_cases h1 : t = "colorizer".toList
      · subst h1
        simp [setupFiltersLoop, ih true uc acc hrest, ih ud true acc hrest,
              List.filterMap_cons, middleName, List.any_cons]
      · by_cases h2 : t = "disparity".toList
        · subst h2
          simp [setupFiltersLoop, ih true uc acc hrest,
                List.filterMap_cons, middleName, List.any_cons]
        · by_cases h3 : t = "spatial".toList
          · subst h3
            simp [setupFiltersLoop, ih ud uc (acc ++ ["spatial"]) hrest,
                  List.filterMap_cons, middleName, List.any_cons]
          · by_cases h4 : t = "temporal".toList
            · subst h4
              simp [setupFiltersLoop, ih ud uc (acc ++ ["temporal"]) hrest,
                    List.filterMap_cons, middleName, List.any_cons]
            · by_cases h5 : t = "decimation".toList
              · subst h5
                simp [setupFiltersLoop, ih ud uc (acc ++ ["decimation"]) hrest,
                      List.filterMap_cons, middleName, List.any_cons]
              · simp only [goodToken, Bool.or_eq_true, Bool.and_eq_true,
                           decide_eq_true_eq] at ht
                rcases ht with (((((hc | hd) | hs) | hte) | hde) | ⟨h6, hpc⟩) | h7
                · exact absurd hc h1
                · exact absurd hd h2
                · exact absurd hs h3
                · exact absurd hte h4
                · exact absurd hde h5
                · subst h6
                  subst hpc
                  simp [setupFiltersLoop, ih ud uc acc hrest,
                        List.filterMap_cons, middleName, List.any_cons]
                · subst h7
                  simp [setupFiltersLoop, ih ud uc acc hrest,
                        List.filterMap_cons, middleName, List.any_cons]

theorem setupFiltersLoop_uc_true (tokens : List (List Char)) (pointcloud : Bool) :
    ∀ (ud : Bool) (acc fs : List String) (ud' uc' : Bool),
    setupFiltersLoop pointcloud ud true acc tokens = Except.ok (fs, ud', uc') →
    uc' = true := by
  induction tokens with
  | nil =>
      intro ud acc fs ud' uc' h
      simp [setupFiltersLoop] at h
      exact h.2.2
  | cons t rest ih =>
      intro ud acc fs ud' uc' h
      by_cases h1 : t = "colorizer".toList
      · rw [setupFiltersLoop, if_pos h1] at h
        exact ih ud acc fs ud' uc' h
      · by_cases h2 : t = "disparity".toList
        · rw [setupFiltersLoop, if_neg h1, if_pos h2] at h
          exact ih true acc fs ud' uc' h
        · by_cases h3 : t = "spatial".toList
          · rw [setupFiltersLoop, if_neg h1, if_neg h2, if_pos h3] at h
            exact ih ud (acc ++ ["spatial"]) fs ud' uc' h
          · by_cases h4 : t = "temporal".toList
            · rw [setupFiltersLoop, if_neg h1, if_neg h2, if_neg h3, if_pos h4] at h
              exact ih ud (acc ++ ["temporal"]) fs ud' uc' h
            · by_cases h5 : t = "decimation".toList
              · rw [setupFiltersLoop, if_neg h1, if_neg h2, if_neg h3, if_neg h4,
                    if_pos h5] at h
                exact ih ud (acc ++ ["decimation"]) fs ud' uc' h
              · by_cases h6 : t = "pointcloud".toList
                · rw [setupFiltersLoop, if_neg h1, if_neg h2, if_neg h3, if_neg h4,
                      if_neg h5, if_pos h6] at h
                  by_cases hpc : pointcloud = true
                  · rw [if_pos hpc] at h
                    exact ih ud acc fs ud' uc' h
                  · rw [if_neg hpc] at h
                    exact absurd h (by simp)
                · by_cases h7 : t.length > 0
                  · rw [setupFiltersLoop, if_neg h1, if_neg h2, if_neg h3, if_neg h4,
                        if_neg h5, if_neg h6, if_pos h7] at h
                    exact absurd h (by simp)
                  · rw [setupFiltersLoop, if_neg h1, if_neg h2, if_neg h3, if_neg h4,
                        if_neg h5, if_neg h6, if_neg h7] at h
                    exact ih ud acc fs ud' uc' h

theorem setupFiltersLoop_colorizer_mem (tokens : List (List Char)) (pointcloud : Bool) :
    ∀ (ud uc : Bool) (acc fs : List String) (ud' uc' : Bool),
    setupFiltersLoop pointcloud ud uc acc tokens = Except.ok (fs, ud', uc') →
    "colorizer".toList ∈ tokens → uc' = true := by
  induction tokens with
  | nil => intro _ _ _ _ _ _ _ hm; exact absurd hm (List.not_mem_nil _)
  | cons t rest ih =>
      intro ud uc acc fs ud' uc' h hm
      by_cases h1 : t = "colorizer".toList
      · rw [setupFiltersLoop, if_pos h1] at h
        exact setupFiltersLoop_uc_true rest pointcloud ud acc fs ud' uc' h
      · have hm' : "colorizer".toList ∈ rest := by
          rcases List.mem_cons.mp hm with h' | h'
          · exact absurd h'.symm h1
          · exact h'
        by_cases h2 : t = "disparity".toList
        · rw [setupFiltersLoop, if_neg h1, if_pos h2] at h
          exact ih true uc acc fs ud' uc' h hm'
        · by_cases h3 : t = "spatial".toList
          · rw [setupFiltersLoop, if_neg h1, if_neg h2, if_pos h3] at h
            exact ih ud uc (acc ++ ["spatial"]) fs ud' uc' h hm'
          · by_cases h4 : t = "temporal".toList
            · rw [setupFiltersLoop, if_neg h1, if_neg h2, if_neg h3, if_pos h4] at h
              exact ih ud uc (acc ++ ["temporal"]) fs ud' uc' h hm'
            · by_cases h5 : t = "decimation".toList
              · rw [setupFiltersLoop, if_neg h1, if_neg h2, if_neg h3, if_neg h4,
                    if_pos h5] at h
                exact ih ud uc (acc ++ ["decimation"]) fs ud' uc' h hm'
              · by_cases h6 : t = "pointcloud".toList
                · rw [setupFiltersLoop, if_neg h1, if_neg h2, if_neg h3, if_neg h4,
                      if_neg h5, if_pos h6] at h
                  by_cases hpc : pointcloud = true
                  · rw [if_pos hpc] at h
                    exact ih ud uc acc fs ud' uc' h hm'
                  · rw [if_neg hpc] at h
                    exact absurd h (by simp)
                · by_cases h7 : t.length > 0
                  · rw [setupFiltersLoop, if_neg h1, if_neg h2, if_neg h3, if_neg h4,
                        if_neg h5, if_neg h6, if_pos h7] at h
                    exact absurd h (by simp)
                  · rw [setupFiltersLoop, if_neg h1, if_neg h2, if_neg h3, if_neg h4,
                        if_neg h5, if_neg h6, if_neg h7] at h
                    exact ih ud uc acc fs ud' uc' h hm'

theorem find?_at_first_index {α : Type} (p : α → Bool) (l : List α) (i : Nat)
    (hi : i < l.length) (hmatch : p (l.get ⟨i, hi⟩) = true)
    (hbefore : ∀ (j : Nat) (hj : j < l.length), j < i → p (l.get ⟨j, hj⟩) = false) :
    l.find? p = some (l.get ⟨i, hi⟩) := by
  induction l generalizing i with
  | nil => exact absurd hi (Nat.not_lt_zero i)
  | cons a rest ih =>
      cases i with
      | zero => simp [List.find?, show p a = true from hmatch]
      | succ i' =>
          have h0 : p a = false :=
            hbefore 0 (Nat.succ_pos _) (Nat.succ_pos _)
          have hi' : i' < rest.length := Nat.lt_of_succ_lt_succ hi
          have hb' : ∀ (j : Nat) (hj : j < rest.length), j < i' →
              p (rest.get ⟨j, hj⟩) = false :=
            fun j hj hlt =>
              hbefore (j + 1) (Nat.succ_lt_succ hj) (Nat.succ_lt_succ hlt)
          simp [List.find?, show p a = false from h0]
          exact ih i' hi' hmatch hb'

theorem splitComma_ne_nil (l : List Char) : splitComma l ≠ [] := by
  cases l with
  | nil => simp [splitComma]
  | cons c rest =>
      rw [splitComma]
      cases splitComma rest with
      | nil => simp
      | cons t ts =>
          by_cases hc : c = ','
          · simp [hc]
          · simp [hc]

theorem splitComma_head_take :
    ∀ (l : List Char) (t : List Char) (ts : List (List Char)),
      splitComma l = t :: ts → t <+: l := by
  intro l
  induction l with
  | nil =>
      intro t ts h
      rw [splitComma] at h
      obtain ⟨h1, _⟩ := List.cons_eq_cons.mp h
      rw [← h1]
  | cons c rest ih =>
      intro t ts h
      rw [splitComma] at h
      cases h' : splitComma rest with
      | nil => exact absurd h' (splitComma_ne_nil rest)
      | cons t' ts' =>
          rw [h'] at h
          by_cases hc : c = ','
          · have h2 : (([] : List Char) :: t' :: ts') = t :: ts := by
              simpa [hc] using h
            obtain ⟨h1, _⟩ := List.cons_eq_cons.mp h2
            rw [← h1]
            exact List.nil_prefix
          · have h2 : ((c :: t') :: ts') = t :: ts := by
              simpa [hc] using h
            obtain ⟨h1, _⟩ := List.cons_eq_cons.mp h2
            rw [← h1]
            exact List.cons_prefix_cons.mpr ⟨rfl, ih t' ts' h'⟩

theorem splitComma_mem_segment :
    ∀ (l : List Char) (t : List Char), t ∈ splitComma l → t <:+: l := by
  intro l
  induction l with
  | nil =>
      intro t h
      rw [splitComma] at h
      rcases List.mem_singleton.mp h with h
      rw [h]
  | cons c rest ih =>
      intro t h
      rw [splitComma] at h
      cases h' : splitComma rest with
      | nil => exact absurd h' (splitComma_ne_nil rest)
      | cons t' ts' =>
          rw [h'] at h
          by_cases hc : c = ','
          · have h2 : t ∈ (([] : List Char) :: t' :: ts') := by
              simpa [hc] using h
            rcases List.mem_cons.mp h2 with h1 | h1
            · rw [h1]
              exact List.nil_infix
            · exact List.infix_cons (ih t (h' ▸ h1))
          · have h2 : t ∈ ((c :: t') :: ts') := by
              simpa [hc] using h
            rcases List.mem_cons.mp h2 with h1 | h1
            · rw [h1]
              exact (List.cons_prefix_cons.mpr
                ⟨rfl, splitComma_head_take rest t' ts' h'⟩).isInfix
            · exact List.infix_cons (ih t (h' ▸ List.mem_cons_of_mem t' h1))

theorem hasSubstring_of_segment :
    ∀ (l pat : List Char), pat <:+: l → hasSubstring pat l = true := by
  intro l
  induction l with
  | nil =>
      intro pat h
      rw [List.infix_nil] at h
      rw [h]
      rfl
  | cons c rest ih =>
      intro pat h
      obtain ⟨s, t, hst⟩ := h
      cases s with
      | nil =>
          have hpre : pat <+: c :: rest := ⟨t, by simpa using hst⟩
          rw [hasSubstring]
          rw [Bool.or_eq_true]
          exact Or.inl (List.isPrefixOf_iff_prefix.mpr hpre)
      | cons d s' =>
          have hd : d = c ∧ s' ++ (pat ++ t) = rest := by
            simpa using hst
          have hinf : pat <:+: rest := ⟨s', t, by rw [← hd.2]; simp⟩
          rw [hasSubstring, Bool.or_eq_true]
          exact Or.inr (ih pat hinf)

/-! ## Claim theorems -/

/-- C1: `publishPointCloud` at a one-point cloud with UV = (2,2) and no
texture stream configured.  The first pass counts zero valid points and
declares `width = 0`, yet the fill loop — which resets `(i,j)` to `(0,0)`
when no texture is used — writes the out-of-range point into the published
list (coloured white).  A point with UV outside `[0,1]²` thus appears in
the output and the output holds more records than the declared width,
contradicting the sizing the first pass established. -/
theorem pointcloud_no_texture_includes_invalid_uv :
    uvValid (2 : ℚ) (2 : ℚ) = false ∧
    publishPointCloud false none [⟨0, 0, 0, 2, 2⟩] =
      some { width := 0, height := 1, points := [⟨0, 0, 0, 255, 255, 255⟩] } := by
  constructor
  · decide
  · simp [publishPointCloud, fillPoint, uvValid, no_color, List.filter, List.filterMap]

/-- C2: once the time base is initialised with wall-clock origin `W0`
(seconds) and hardware origin `T0` (milliseconds), a frame with hardware
timestamp `T1` is stamped `W0 + (T1 - T0) / 1000` when synchronized
publishing is off, and `now + ros_time_offset` when it is on. -/
theorem frame_timestamp_formula (offset W0 T0 T1 now : ℚ) :
    (frame_callback_guarded false false offset ⟨true, W0, T0⟩ now T1).2 =
      some (W0 + (T1 - T0) / 1000) ∧
    (frame_callback_guarded false true offset ⟨true, W0, T0⟩ now T1).2 =
      some (now + offset) := by
  constructor <;>
    simp [frame_callback_guarded, frame_callback_body, updateTimeBase, frameTimestamp]

/-- C6: the time-base state machine is one-way.  Once
`_intialize_time_base` is true, no sequence of image or IMU callback
deliveries changes the record (the flag never reverts and the origins are
never overwritten), and from the uninitialised state the first image-stream
frame sets the flag and records that frame's wall clock and hardware
timestamp as the origins. -/
theorem time_base_one_way :
    (∀ (st : TimeBase) (evs : List CbEvent), st.intialize_time_base = true →
      List.foldl sessionStep st evs = st) ∧
    (∀ (w c now ts : ℚ),
      sessionStep ⟨false, w, c⟩ (CbEvent.image now ts) = ⟨true, now, ts⟩) := by
  constructor
  · exact foldl_sessionStep_of_initialized
  · intro w c now ts
    simp [sessionStep, updateTimeBase]

/-- Witness for `time_base_one_way` at a concrete initialised state and a
concrete mixed event list. -/
theorem time_base_one_way_witness :
    (⟨true, 5, 7⟩ : TimeBase).intialize_time_base = true ∧
    List.foldl sessionStep ⟨true, 5, 7⟩
      [CbEvent.imu 1 2, CbEvent.image 3 4, CbEvent.imu 9 9] = ⟨true, 5, 7⟩ :=
  ⟨rfl, time_base_one_way.1 ⟨true, 5, 7⟩ _ rfl⟩

/-- C7: an exception during the processing of one frameset (injected here
at the publish point) is caught by the callback's `try`/`catch`: the
callback still returns, it leaves the session state exactly as the
non-faulting run would, only that frameset's publication is dropped, and
the next (non-faulting) invocation publishes normally. -/
theorem frame_callback_error_contained
    (publish_fault sync : Bool) (offset : ℚ) (st : TimeBase) (now ts now2 ts2 : ℚ) :
    (frame_callback_guarded publish_fault sync offset st now ts).1 =
      (frame_callback_guarded false sync offset st now ts).1 ∧
    (publish_fault = true →
      (frame_callback_guarded publish_fault sync offset st now ts).2 = none) ∧
    ((frame_callback_guarded false sync offset
        (frame_callback_guarded publish_fault sync offset st now ts).1 now2 ts2).2).isSome
      = true := by
  refine ⟨?_, ?_, ?_⟩
  · cases publish_fault <;> rfl
  · intro h
    subst h
    rfl
  · cases publish_fault <;> rfl

/-- Witness for `frame_callback_error_contained` at a concrete faulting
invocation. -/
theorem frame_callback_error_contained_witness :
    (true = true → (frame_callback_guarded true false 0 ⟨false, 0, 0⟩ 3 40).2 = none) :=
  (frame_callback_error_contained true false 0 ⟨false, 0, 0⟩ 3 40 5 60).2.1

/-- C9: before the time base is initialised, an IMU callback delivery is
dropped in its entirety — nothing is published, the sequence counter is
untouched and the time base stays uninitialised — while the first image
frame initialises the time base within its own invocation and is still
publishable. -/
theorem imu_dropped_image_initializes :
    (∀ (st : TimeBase) (seq : Nat) (subs : Bool) (ts : ℚ),
      st.intialize_time_base = false →
      imu_callback st seq subs ts = (st, seq, none)) ∧
    (∀ (w c : ℚ) (sync : Bool) (offset now ts : ℚ),
      (frame_callback_guarded false sync offset ⟨false, w, c⟩ now ts).1.intialize_time_base
        = true ∧
      ((frame_callback_guarded false sync offset ⟨false, w, c⟩ now ts).2).isSome = true) := by
  constructor
  · intro st seq subs ts h
    simp [imu_callback, h]
  · intro w c sync offset now ts
    constructor <;> rfl

/-- Witness for `imu_dropped_image_initializes` at a concrete
uninitialised state. -/
theorem imu_dropped_image_initializes_witness :
    (⟨false, 0, 0⟩ : TimeBase).intialize_time_base = false ∧
    imu_callback ⟨false, 0, 0⟩ 4 true 25 = (⟨false, 0, 0⟩, 4, none) :=
  ⟨rfl, imu_dropped_image_initializes.1 ⟨false, 0, 0⟩ 4 true 25 rfl⟩

/-- C3: the deduplication loop of `frame_callback` keeps, for every
StreamKey `k`, exactly the first-encountered non-points frame with that
key (later frames with the same key are absent from `frames_to_publish`,
the only list the publish loop reads), and it keeps at most one
`rs2::points` frame — exactly the first one — regardless of key
collisions. -/
theorem frames_to_publish_first_per_key (frameset : List DFrame) :
    (∀ k : StreamIndexPair,
      (framesToPublish frameset).filter (nonPointsKey k) =
        (frameset.filter (nonPointsKey k)).take 1) ∧
    (framesToPublish frameset).filter (fun f => f.isPoints) =
      (frameset.filter (fun f => f.isPoints)).take 1 ∧
    ((framesToPublish frameset).filter (fun f => f.isPoints)).length ≤ 1 := by
  refine ⟨fun k => ?_, ?_, ?_⟩
  · exact selectFramesAux_filter_key_of_not_mem frameset false [] k (List.not_mem_nil k)
  · exact selectFramesAux_filter_points frameset []
  · rw [show framesToPublish frameset = selectFramesAux false [] frameset from rfl,
        selectFramesAux_filter_points frameset []]
    simp [List.length_take]

/-- C4 (amended): for every accepted request containing "disparity" and
any point-cloud flag, `setupFilters` yields the depth-to-disparity
transform first, the requested spatial/temporal/decimation stages in
request order, then the disparity-to-depth transform immediately after
them; a "colorizer" stage (when the token is present) and a "pointcloud"
stage (when the flag is set) are appended after the disparity-to-depth
transform, so it is at the very back exactly in their absence. -/
theorem filters_disparity_bracketing (pointcloud : Bool) (dd cd : StreamDesc)
    (s : List Char)
    (hgood : ∀ t ∈ splitComma s, goodToken pointcloud t = true)
    (hdisp : "disparity".toList ∈ splitComma s) :
    setupFilters pointcloud dd cd s =
      Except.ok
        ((("disparity_start" :: (splitComma s).filterMap middleName
             ++ ["disparity_end"])
            ++ (if "colorizer".toList ∈ splitComma s then ["colorizer"] else []))
           ++ (if pointcloud then ["pointcloud"] else []),
         if "colorizer".toList ∈ splitComma s then
           ⟨cd.format, cd.image_format, cd.encoding, cd.unit_step_size,
            cd.width, cd.height⟩
         else dd) := by
  have hloop := setupFiltersLoop_ok (splitComma s) pointcloud false false [] hgood
  have hany : (splitComma s).any (fun t => decide (t = "disparity".toList)) = true := by
    rw [List.any_eq_true]
    exact ⟨_, hdisp, by simp⟩
  by_cases hc : "colorizer".toList ∈ splitComma s
  · have hanyc : (splitComma s).any (fun t => decide (t = "colorizer".toList)) = true := by
      rw [List.any_eq_true]
      exact ⟨_, hc, by simp⟩
    simp only [setupFilters, hloop, hany, hanyc, if_pos hc]
    cases pointcloud <;> simp
  · have hanyc : (splitComma s).any (fun t => decide (t = "colorizer".toList)) = false := by
      rw [List.any_eq_false]
      intro x hx hxe
      rw [decide_eq_true_eq] at hxe
      exact hc (hxe ▸ hx)
    simp only [setupFilters, hloop, hany, hanyc, if_neg hc]
    cases pointcloud <;> simp

/-- Witness for `filters_disparity_bracketing`: the request
"temporal,disparity,spatial" executes as
[disparity-in, temporal, spatial, disparity-out], and the request
"spatial,disparity,colorizer" with the point-cloud flag set executes as
[disparity-in, spatial, disparity-out, colorizer, pointcloud]. -/
theorem filters_disparity_bracketing_witness :
    ("disparity".toList ∈ splitComma "temporal,disparity,spatial".toList) ∧
    setupFilters false (depthDescInit 640 480) (colorDescInit 640 480)
        "temporal,disparity,spatial".toList =
      Except.ok (["disparity_start", "temporal", "spatial", "disparity_end"],
                 depthDescInit 640 480) ∧
    setupFilters true (depthDescInit 640 480) (colorDescInit 640 480)
        "spatial,disparity,colorizer".toList =
      Except.ok (["disparity_start", "spatial", "disparity_end", "colorizer",
                  "pointcloud"],
                 colorDescInit 640 480) := by
  refine ⟨by decide, ?_, ?_⟩
  · have h := filters_disparity_bracketing false (depthDescInit 640 480)
        (colorDescInit 640 480) "temporal,disparity,spatial".toList
        (by decide) (by decide)
    rw [h]
    rfl
  · have h := filters_disparity_bracketing true (depthDescInit 640 480)
        (colorDescInit 640 480) "spatial,disparity,colorizer".toList
        (by decide) (by decide)
    rw [h]
    rfl

/-- C4 counterexample: for the request "disparity,colorizer" the executed
order is [disparity-in, disparity-out, colorizer] — "disparity" is in the
request, yet the disparity-to-depth transform is not at the back of the
executed filter sequence. -/
theorem filters_colorizer_after_disparity_end :
    ("disparity".toList ∈ splitComma "disparity,colorizer".toList) ∧
    setupFilters false (depthDescInit 640 480) (colorDescInit 640 480)
        "disparity,colorizer".toList =
      Except.ok (["disparity_start", "disparity_end", "colorizer"],
                 colorDescInit 640 480) ∧
    ["disparity_start", "disparity_end", "colorizer"].getLast? ≠ some "disparity_end" := by
  refine ⟨by decide, by rfl, by decide⟩

/-- C8: whenever `setupFilters` returns successfully on a request
containing the "colorizer" token, the DEPTH stream descriptor it returns
has adopted the COLOR stream's pixel format, decoded pixel layout, output
encoding tag and bytes-per-unit. -/
theorem colorizer_mutates_depth_descriptor (pointcloud : Bool)
    (dd cd : StreamDesc) (s : List Char) (fl : List String) (d' : StreamDesc)
    (h : setupFilters pointcloud dd cd s = Except.ok (fl, d'))
    (hmem : "colorizer".toList ∈ splitComma s) :
    d'.format = cd.format ∧ d'.image_format = cd.image_format ∧
    d'.encoding = cd.encoding ∧ d'.unit_step_size = cd.unit_step_size := by
  rw [setupFilters] at h
  cases hloop : setupFiltersLoop pointcloud false false [] (splitComma s) with
  | error e => rw [hloop] at h; exact absurd h (by simp)
  | ok r =>
      obtain ⟨fs, ud, uc⟩ := r
      have huc : uc = true :=
        setupFiltersLoop_colorizer_mem (splitComma s) pointcloud false false [] fs ud uc
          hloop hmem
      subst huc
      rw [hloop] at h
      simp only [Except.ok.injEq, Prod.mk.injEq] at h
      rw [← h.2]
      simp

/-- Witness for `colorizer_mutates_depth_descriptor`: with the
constructor's descriptors (`Z16`/`CV_16UC1`/`16UC1`/2 bytes for DEPTH,
`RGB8`/`CV_8UC3`/`rgb8`/3 bytes for COLOR), requesting "colorizer" makes
the DEPTH descriptor equal to the COLOR one — a subsequent depth frame is
published through the 3-bytes-per-pixel colour pathway instead of the
2-byte depth pathway. -/
theorem colorizer_mutates_depth_descriptor_witness :
    ((colorDescInit 1920 1080).format = (colorDescInit 1920 1080).format ∧
     (colorDescInit 1920 1080).image_format = (colorDescInit 1920 1080).image_format ∧
     (colorDescInit 1920 1080).encoding = (colorDescInit 1920 1080).encoding ∧
     (colorDescInit 1920 1080).unit_step_size = (colorDescInit 1920 1080).unit_step_size) ∧
    (colorDescInit 1920 1080).unit_step_size = 3 ∧
    (depthDescInit 640 480).unit_step_size = 2 :=
  ⟨colorizer_mutates_depth_descriptor false (depthDescInit 640 480)
      (colorDescInit 1920 1080) "colorizer".toList ["colorizer"]
      (colorDescInit 1920 1080) (by rfl) (by decide),
   rfl, rfl⟩

/-- C5: profile negotiation accepts the first hardware-reported
configuration matching the descriptor's format, the requested
width/height/fps (0 meaning unconstrained) and the stream index, writing
the resolved values back; when nothing matches, that StreamKey is
disabled with a warning; and each stream in the enabled list is
negotiated independently of the others (the selection is a function of
the profile list and request, hence deterministic). -/
theorem profile_negotiation_first_match :
    (∀ (req : StreamRequest) (ps : List VideoProfile) (i : Nat) (hi : i < ps.length),
      profileMatches req (ps.get ⟨i, hi⟩) = true →
      (∀ (j : Nat) (hj : j < ps.length), j < i →
        profileMatches req (ps.get ⟨j, hj⟩) = false) →
      enableStream req ps =
        ⟨(ps.get ⟨i, hi⟩).width, (ps.get ⟨i, hi⟩).height, (ps.get ⟨i, hi⟩).fps,
         true, false, some (ps.get ⟨i, hi⟩)⟩) ∧
    (∀ (req : StreamRequest) (ps : List VideoProfile),
      (∀ p ∈ ps, profileMatches req p = false) →
      enableStream req ps = ⟨req.width, req.height, req.fps, false, true, none⟩) ∧
    (∀ (pre post : List (StreamRequest × List VideoProfile))
       (r : StreamRequest × List VideoProfile),
      enable_devices (pre ++ r :: post) =
        enable_devices pre ++ enableStream r.1 r.2 :: enable_devices post) := by
  refine ⟨?_, ?_, ?_⟩
  · intro req ps i hi hmatch hbefore
    rw [enableStream, find?_at_first_index (fun p => profileMatches req p) ps i hi
          hmatch hbefore]
  · intro req ps h
    rw [enableStream, List.find?_eq_none.mpr (fun p hp => by simp [h p hp])]
  · intro pre post r
    simp [enable_devices]

/-- Witness for `profile_negotiation_first_match`: the request depth
848×480@30 Z16 selects exactly that available profile (first match, second
position), and the request color 1920×1080@60 RGB8 against a device
offering only 1280×720@30 disables the stream with a warning. -/
theorem profile_negotiation_first_match_witness :
    (profileMatches ⟨RsFormat.z16, 848, 480, 30, 0⟩
        ([⟨RsFormat.y8, 848, 480, 30, 1⟩,
          ⟨RsFormat.z16, 848, 480, 30, 0⟩].get ⟨1, by decide⟩) = true ∧
     enableStream ⟨RsFormat.z16, 848, 480, 30, 0⟩
        [⟨RsFormat.y8, 848, 480, 30, 1⟩, ⟨RsFormat.z16, 848, 480, 30, 0⟩] =
       ⟨848, 480, 30, true, false, some ⟨RsFormat.z16, 848, 480, 30, 0⟩⟩) ∧
    enableStream ⟨RsFormat.rgb8, 1920, 1080, 60, 0⟩
        [⟨RsFormat.rgb8, 1280, 720, 30, 0⟩] =
      ⟨1920, 1080, 60, false, true, none⟩ := by
  refine ⟨⟨by decide, ?_⟩, ?_⟩
  · exact profile_negotiation_first_match.1 ⟨RsFormat.z16, 848, 480, 30, 0⟩
      [⟨RsFormat.y8, 848, 480, 30, 1⟩, ⟨RsFormat.z16, 848, 480, 30, 0⟩] 1
      (by decide) (by decide)
      (by
        intro j hj hlt
        have hj0 : j = 0 := by omega
        subst hj0
        show profileMatches ⟨RsFormat.z16, 848, 480, 30, 0⟩
          ⟨RsFormat.y8, 848, 480, 30, 1⟩ = false
        decide)
  · exact profile_negotiation_first_match.2.1 ⟨RsFormat.rgb8, 1920, 1080, 60, 0⟩
      [⟨RsFormat.rgb8, 1280, 720, 30, 0⟩] (by decide)

/-- C10: after `getParameters`, `_sync_frames` is forced true whenever the
derived point-cloud flag is set, depth alignment is enabled or the filter
string is non-empty, regardless of the user's `enable_sync`; only when all
three are absent is the user's setting kept; and the token "pointcloud"
occurring in the filter string forces the point-cloud flag. -/
theorem sync_forced_by_flags (upc ad : Bool) (fs : List Char) (us : Bool) :
    ((getParametersFlags upc ad fs us).1 = true ∨ ad = true ∨ 0 < fs.length →
      (getParametersFlags upc ad fs us).2 = true) ∧
    ((getParametersFlags upc ad fs us).1 = false → ad = false → fs = [] →
      (getParametersFlags upc ad fs us).2 = us) ∧
    ("pointcloud".toList ∈ splitComma fs → (getParametersFlags upc ad fs us).1 = true) := by
  refine ⟨?_, ?_, ?_⟩
  · intro h
    simp only [getParametersFlags]
    split
    · rfl
    · rename_i hcond
      exfalso
      simp only [Bool.or_eq_true, not_or, decide_eq_true_eq] at hcond
      obtain ⟨⟨⟨hnu, hns⟩, hna⟩, hnl⟩ := hcond
      rcases h with h | h | h
      · have h' : (upc || hasSubstring "pointcloud".toList fs) = true := h
        rw [Bool.or_eq_true] at h'
        rcases h' with h' | h'
        · exact hnu h'
        · exact hns h'
      · exact hna h
      · exact hnl h
  · intro h1 h2 h3
    subst h2
    subst h3
    have h1' : (upc || hasSubstring "pointcloud".toList []) = false := h1
    cases upc with
    | true => exact absurd h1' (by decide)
    | false => rfl
  · intro hmem
    have hsub : hasSubstring "pointcloud".toList fs = true :=
      hasSubstring_of_segment fs "pointcloud".toList (splitComma_mem_segment fs _ hmem)
    simp only [getParametersFlags]
    rw [hsub]
    simp

/-- Witness for `sync_forced_by_flags`: with every user flag off, the
filter string "pointcloud" alone sets the point-cloud flag and forces sync
mode on, while the empty configuration keeps the user's sync setting. -/
theorem sync_forced_by_flags_witness :
    (getParametersFlags false false ("pointcloud".toList) false).1 = true ∧
    (getParametersFlags false false ("pointcloud".toList) false).2 = true ∧
    (getParametersFlags false false [] false).2 = false := by
  have hpc := (sync_forced_by_flags false false ("pointcloud".toList) false).2.2
    (by decide)
  refine ⟨hpc, (sync_forced_by_flags false false ("pointcloud".toList) false).1
    (Or.inl hpc), ?_⟩
  exact (sync_forced_by_flags false false [] false).2.1 (by decide) rfl rfl

end RealSense
